import Mathlib

/-!
# AT-SPI Selection bridge (`gtk/a11y/gtkatspiselection.c`) and registration root
(`gtk/a11y/gtkatspiroot.c`)

A shallow embedding of the four selection dispatch tables (list box, flow box,
combo box, stack switcher), of the lookup of the table of a widget, of the
selection-change subscriptions, and of the root object of the application (its
fields, the registration reply and the property getters).  A handler of the C file receives the widget, the
method name and the `(i)` parameter and answers through the invocation; here it
is a function from the widget state, the method name and the index to the new
widget state and the reply that was sent (`none` when no branch sends one).

The widgets themselves (`gtklistbox.c`, `gtkflowbox.c`, `gtkcombobox.c`,
`gtkstack.c`) are not part of the translated sources; the primitives the
handlers call are modelled from the specification and marked as such.
-/

namespace GtkAtspi

/-! ## Machine integers -/

/-- Reduction of an integer to the value range of a C `int` (32 bits, two's
complement), used where the C code does arithmetic on an `int`. -/
def wrap32 (x : Int) : Int := (x + 2 ^ 31) % 2 ^ 32 - 2 ^ 31

/-- Conversion of a C `int` argument to a `guint` parameter. -/
def to_guint (x : Int) : Nat := (x % 2 ^ 32).toNat

/-! ## Replies -/

/-- What a handler sends back through the method invocation. -/
inductive Reply where
  /-- Value `(@(so))`: the reference built by `gtk_at_spi_context_to_ref` from
  the AT context of a child; the context is identified by a number. -/
  | ref (ctx : Nat)
  /-- Value `(b)`. -/
  | bool (b : Bool)
  /-- Error `G_DBUS_ERROR_INVALID_ARGS`. -/
  | error_invalid_args
  /-- Error `G_DBUS_ERROR_NOT_SUPPORTED`. -/
  | error_not_supported
  deriving DecidableEq, Repr

/-- The boolean that is read back from the `(b)` value `g_variant_new` builds
from a `gboolean` argument that holds an arbitrary `int`: the library stores
the argument in one byte (`guchar v = value`), so only its low eight bits
count. -/
def g_variant_new_boolean (value : Int) : Bool := decide (value % 256 ≠ 0)

/-! ## Children of a list box or flow box -/

/-- Modelled from the spec: a row of a `GtkListBox` or a child of a
`GtkFlowBox` (their C structures are not in the translated sources).  It has an
identity, the AT context from which its reference is built, and the flag that
says whether it is currently chosen. -/
structure Child where
  ctx : Nat
  selected : Bool
  deriving DecidableEq, Repr

/-- Modelled from the spec: writes the selection flag of the child at position
`pos` (a pointer to a child is its position in the container); the other
children are untouched. -/
def set_selected : List Child → Nat → Bool → List Child
  | [], _, _ => []
  | c :: cs, 0, b => { c with selected := b } :: cs
  | c :: cs, p + 1, b => c :: set_selected cs p b

/-- Modelled from the spec: the child that index `idx` addresses, `none` (the
C `NULL`) when `idx` is negative or not below the number of children. -/
def child_at_index (cs : List Child) (idx : Int) : Option Nat :=
  if 0 ≤ idx ∧ idx < cs.length then some idx.toNat else none

/-- Modelled from the spec: the selection flag of the child a pointer
designates. -/
def child_is_selected (cs : List Child) (child : Nat) : Bool :=
  match cs[child]? with
  | some c => c.selected
  | none => false

/-- Modelled from the spec: the enumeration of the selected children, in
container order, calling `func` on each with the running `data`; `i` is the
position of the head of `cs` in the container. -/
def selected_foreach_from {α : Type} (func : Nat → α → α) : Nat → List Child → α → α
  | _, [], data => data
  | i, c :: cs, data =>
      selected_foreach_from func (i + 1) cs (if c.selected then func i data else data)

/-- Modelled from the spec: `gtk_accessible_get_at_context` on a child
pointer. -/
def gtk_accessible_get_at_context (cs : List Child) (child : Nat) : Nat :=
  match cs[child]? with
  | some c => c.ctx
  | none => 0

/-- The `Counter` of the C file: the remaining count and the child found. -/
structure Counter where
  n : Int
  child : Option Nat
  deriving DecidableEq, Repr

/-- The callback `find_nth`: remembers the child seen when the count is zero,
then decrements the count (an `int`). -/
def find_nth (child : Nat) (counter : Counter) : Counter :=
  { n := wrap32 (counter.n - 1)
    child := if counter.n = 0 then some child else counter.child }

/-- The callback `count_selected`: adds one to the `int` behind `data`. -/
def count_selected (_child : Nat) (data : Int) : Int := wrap32 (data + 1)

/-! ## List box -/

/-- Modelled from the spec: the state of a `GtkListBox` as far as selection is
concerned, its rows in order. -/
structure GtkListBox where
  children : List Child
  deriving DecidableEq, Repr

/-- Modelled from the spec: `gtk_list_box_get_row_at_index`. -/
def gtk_list_box_get_row_at_index (box : GtkListBox) (idx : Int) : Option Nat :=
  child_at_index box.children idx

/-- Modelled from the spec: `gtk_list_box_row_is_selected`. -/
def gtk_list_box_row_is_selected (box : GtkListBox) (row : Nat) : Bool :=
  child_is_selected box.children row

/-- Modelled from the spec: `gtk_list_box_select_row`, the row becomes
chosen. -/
def gtk_list_box_select_row (box : GtkListBox) (row : Nat) : GtkListBox :=
  { children := set_selected box.children row true }

/-- Modelled from the spec: `gtk_list_box_unselect_row`, the row stops being
chosen. -/
def gtk_list_box_unselect_row (box : GtkListBox) (row : Nat) : GtkListBox :=
  { children := set_selected box.children row false }

/-- Modelled from the spec: `gtk_list_box_select_all`, a whole-collection
operation. -/
def gtk_list_box_select_all (box : GtkListBox) : GtkListBox :=
  { children := box.children.map fun c => { c with selected := true } }

/-- Modelled from the spec: `gtk_list_box_unselect_all`. -/
def gtk_list_box_unselect_all (box : GtkListBox) : GtkListBox :=
  { children := box.children.map fun c => { c with selected := false } }

/-- Modelled from the spec: `gtk_list_box_selected_foreach`. -/
def gtk_list_box_selected_foreach {α : Type} (box : GtkListBox)
    (func : Nat → α → α) (data : α) : α :=
  selected_foreach_from func 0 box.children data

/-- The handler `listbox_handle_method`. -/
def listbox_handle_method (widget : GtkListBox) (method_name : String) (idx : Int) :
    GtkListBox × Option Reply :=
  if method_name = "GetSelectedChild" then
    let counter := gtk_list_box_selected_foreach widget find_nth { n := idx, child := none }
    match counter.child with
    | none => (widget, some Reply.error_invalid_args)
    | some child =>
        (widget, some (Reply.ref (gtk_accessible_get_at_context widget.children child)))
  else if method_name = "SelectChild" then
    match gtk_list_box_get_row_at_index widget idx with
    | none => (widget, some Reply.error_invalid_args)
    | some row =>
        let widget1 := gtk_list_box_select_row widget row
        let ret := gtk_list_box_row_is_selected widget1 row
        (widget1, some (Reply.bool ret))
  else if method_name = "DeselectChild" then
    match gtk_list_box_get_row_at_index widget idx with
    | none => (widget, some Reply.error_invalid_args)
    | some row =>
        let widget1 := gtk_list_box_unselect_row widget row
        let ret := !gtk_list_box_row_is_selected widget1 row
        (widget1, some (Reply.bool ret))
  else if method_name = "DeselectSelectedChild" then
    let counter := gtk_list_box_selected_foreach widget find_nth { n := idx, child := none }
    match counter.child with
    | none => (widget, some Reply.error_invalid_args)
    | some child =>
        let widget1 := gtk_list_box_unselect_row widget child
        let ret := !gtk_list_box_row_is_selected widget1 child
        (widget1, some (Reply.bool ret))
  else if method_name = "IsChildSelected" then
    match gtk_list_box_get_row_at_index widget idx with
    | none => (widget, some Reply.error_invalid_args)
    | some row => (widget, some (Reply.bool (gtk_list_box_row_is_selected widget row)))
  else if method_name = "SelectAll" then
    (gtk_list_box_select_all widget, some (Reply.bool true))
  else if method_name = "ClearSelection" then
    (gtk_list_box_unselect_all widget, some (Reply.bool true))
  else
    (widget, none)

/-- The getter `listbox_get_property`; `none` is the C `NULL`. -/
def listbox_get_property (widget : GtkListBox) (property_name : String) : Option Int :=
  if property_name = "NSelectedChildren" then
    let count := gtk_list_box_selected_foreach widget count_selected (0 : Int)
    some count
  else
    none

/-! ## Flow box -/

/-- Modelled from the spec: the state of a `GtkFlowBox` as far as selection is
concerned, its children in order. -/
structure GtkFlowBox where
  children : List Child
  deriving DecidableEq, Repr

/-- Modelled from the spec: `gtk_flow_box_get_child_at_index`. -/
def gtk_flow_box_get_child_at_index (box : GtkFlowBox) (idx : Int) : Option Nat :=
  child_at_index box.children idx

/-- Modelled from the spec: `gtk_flow_box_child_is_selected`. -/
def gtk_flow_box_child_is_selected (box : GtkFlowBox) (child : Nat) : Bool :=
  child_is_selected box.children child

/-- Modelled from the spec: `gtk_flow_box_select_child`. -/
def gtk_flow_box_select_child (box : GtkFlowBox) (child : Nat) : GtkFlowBox :=
  { children := set_selected box.children child true }

/-- Modelled from the spec: `gtk_flow_box_unselect_child`. -/
def gtk_flow_box_unselect_child (box : GtkFlowBox) (child : Nat) : GtkFlowBox :=
  { children := set_selected box.children child false }

/-- Modelled from the spec: `gtk_flow_box_select_all`. -/
def gtk_flow_box_select_all (box : GtkFlowBox) : GtkFlowBox :=
  { children := box.children.map fun c => { c with selected := true } }

/-- Modelled from the spec: `gtk_flow_box_unselect_all`. -/
def gtk_flow_box_unselect_all (box : GtkFlowBox) : GtkFlowBox :=
  { children := box.children.map fun c => { c with selected := false } }

/-- Modelled from the spec: `gtk_flow_box_selected_foreach`. -/
def gtk_flow_box_selected_foreach {α : Type} (box : GtkFlowBox)
    (func : Nat → α → α) (data : α) : α :=
  selected_foreach_from func 0 box.children data

/-- The handler `flowbox_handle_method`. -/
def flowbox_handle_method (widget : GtkFlowBox) (method_name : String) (idx : Int) :
    GtkFlowBox × Option Reply :=
  if method_name = "GetSelectedChild" then
    let counter := gtk_flow_box_selected_foreach widget find_nth { n := idx, child := none }
    match counter.child with
    | none => (widget, some Reply.error_invalid_args)
    | some child =>
        (widget, some (Reply.ref (gtk_accessible_get_at_context widget.children child)))
  else if method_name = "SelectChild" then
    match gtk_flow_box_get_child_at_index widget idx with
    | none => (widget, some Reply.error_invalid_args)
    | some child =>
        let widget1 := gtk_flow_box_select_child widget child
        let ret := gtk_flow_box_child_is_selected widget1 child
        (widget1, some (Reply.bool ret))
  else if method_name = "DeselectChild" then
    match gtk_flow_box_get_child_at_index widget idx with
    | none => (widget, some Reply.error_invalid_args)
    | some child =>
        let widget1 := gtk_flow_box_unselect_child widget child
        let ret := !gtk_flow_box_child_is_selected widget1 child
        (widget1, some (Reply.bool ret))
  else if method_name = "DeselectSelectedChild" then
    let counter := gtk_flow_box_selected_foreach widget find_nth { n := idx, child := none }
    match counter.child with
    | none => (widget, some Reply.error_invalid_args)
    | some child =>
        let widget1 := gtk_flow_box_unselect_child widget child
        let ret := !gtk_flow_box_child_is_selected widget1 child
        (widget1, some (Reply.bool ret))
  else if method_name = "IsChildSelected" then
    match gtk_flow_box_get_child_at_index widget idx with
    | none => (widget, some Reply.error_invalid_args)
    | some child => (widget, some (Reply.bool (gtk_flow_box_child_is_selected widget child)))
  else if method_name = "SelectAll" then
    (gtk_flow_box_select_all widget, some (Reply.bool true))
  else if method_name = "ClearSelection" then
    (gtk_flow_box_unselect_all widget, some (Reply.bool true))
  else
    (widget, none)

/-- The getter `flowbox_get_property`; `none` is the C `NULL`. -/
def flowbox_get_property (widget : GtkFlowBox) (property_name : String) : Option Int :=
  if property_name = "NSelectedChildren" then
    let count := gtk_flow_box_selected_foreach widget count_selected (0 : Int)
    some count
  else
    none

/-! ## Combo box -/

/-- Modelled from the spec: the state of a `GtkComboBox` as far as selection is
concerned.  The selection is "at most one active index, or none": `active` is
the index of the active item, `-1` when no item is active. -/
structure GtkComboBox where
  n_items : Nat
  active : Int
  deriving DecidableEq, Repr

/-- Modelled from the spec: `gtk_combo_box_get_active`, the active index or
`-1`. -/
def gtk_combo_box_get_active (combo_box : GtkComboBox) : Int := combo_box.active

/-- Modelled from the spec: `gtk_combo_box_set_active`.  An index that
addresses an item makes that item the active one and `-1` leaves no item
active.  The spec is silent on the other values; here an index below `-1` is
refused (nothing changes) and an index past the last item leaves no item
active. -/
def gtk_combo_box_set_active (combo_box : GtkComboBox) (index_ : Int) : GtkComboBox :=
  if index_ < -1 then combo_box
  else if index_ = -1 then { combo_box with active := -1 }
  else if index_ < combo_box.n_items then { combo_box with active := index_ }
  else { combo_box with active := -1 }

/-- The handler `combobox_handle_method`. -/
def combobox_handle_method (widget : GtkComboBox) (method_name : String) (idx : Int) :
    GtkComboBox × Option Reply :=
  if method_name = "GetSelectedChild" then
    (widget, some Reply.error_not_supported)
  else if method_name = "SelectChild" then
    (gtk_combo_box_set_active widget idx, some (Reply.bool true))
  else if method_name = "DeselectChild" then
    (gtk_combo_box_set_active widget (-1), some (Reply.bool true))
  else if method_name = "DeselectSelectedChild" then
    let widget1 := if idx = 0 then gtk_combo_box_set_active widget (-1) else widget
    (widget1, some (Reply.bool (decide (idx = 0))))
  else if method_name = "IsChildSelected" then
    -- `active = idx = gtk_combo_box_get_active (...)`: the parameter is overwritten,
    -- and the index itself is what `g_variant_new ("(b)", active)` receives
    let idx1 := gtk_combo_box_get_active widget
    let active := idx1
    (widget, some (Reply.bool (g_variant_new_boolean active)))
  else if method_name = "SelectAll" then
    (widget, some (Reply.bool false))
  else if method_name = "ClearSelection" then
    (gtk_combo_box_set_active widget (-1), some (Reply.bool true))
  else
    (widget, none)

/-- The getter `combobox_get_property`; the active index is used as the
condition of the `if`. -/
def combobox_get_property (widget : GtkComboBox) (property_name : String) : Option Int :=
  if property_name = "NSelectedChildren" then
    if gtk_combo_box_get_active widget ≠ 0 then some 1 else some 0
  else
    none

/-! ## Stack switcher -/

/-- Modelled from the spec: the state of a `GtkStack` as far as selection is
concerned: the number of pages and the position of the visible page, if any.
The page selection model of the stack has one item per page and the selected
item is the visible page. -/
structure GtkStack where
  n_pages : Nat
  visible_child : Option Nat
  deriving DecidableEq, Repr

/-- Modelled from the spec: a `GtkStackSwitcher`: the stack it controls (`none`
is the C `NULL`) and the AT contexts of its direct child widgets, from the
first child to the last sibling. -/
structure GtkStackSwitcher where
  stack : Option GtkStack
  children : List Nat
  deriving DecidableEq, Repr

/-- Modelled from the spec: `g_list_model_get_n_items` on the pages of the
stack. -/
def g_list_model_get_n_items (pages : Option GtkStack) : Nat :=
  match pages with
  | some stack => stack.n_pages
  | none => 0

/-- Modelled from the spec: `gtk_selection_model_is_selected` on the pages of
the stack: the item at `position` exists and is the visible page. -/
def gtk_selection_model_is_selected (pages : Option GtkStack) (position : Nat) : Bool :=
  match pages with
  | some stack => decide (position < stack.n_pages) && decide (stack.visible_child = some position)
  | none => false

/-- Modelled from the spec: `gtk_selection_model_select_item` on the pages of
the stack: the page at `position` becomes the visible page; a position that
addresses no page changes nothing. -/
def gtk_selection_model_select_item (pages : Option GtkStack) (position : Nat) :
    Option GtkStack :=
  match pages with
  | some stack =>
      if position < stack.n_pages then some { stack with visible_child := some position }
      else some stack
  | none => none

/-- Modelled from the spec: `gtk_stack_get_visible_child`. -/
def gtk_stack_get_visible_child (stack : GtkStack) : Option Nat := stack.visible_child

/-- The `for` loop of the `GetSelectedChild` branch of
`stackswitcher_handle_method`, from counter `i` and the list that starts at
the current `child`; the result is `child` when the loop is left. -/
def stackswitcher_selected_loop (pages : Option GtkStack) (n : Nat) :
    Nat → List Nat → Option Nat
  | _, [] => none
  | i, child :: siblings =>
      if i < n then
        if gtk_selection_model_is_selected pages i then some child
        else stackswitcher_selected_loop pages n (i + 1) siblings
      else some child

/-- The handler `stackswitcher_handle_method`. -/
def stackswitcher_handle_method (widget : GtkStackSwitcher) (method_name : String)
    (idx : Int) : GtkStackSwitcher × Option Reply :=
  let stack := widget.stack
  if method_name = "GetSelectedChild" then
    let pages := stack
    let n := g_list_model_get_n_items pages
    match stackswitcher_selected_loop pages n 0 widget.children with
    | none => (widget, some Reply.error_invalid_args)
    | some child => (widget, some (Reply.ref child))
  else if method_name = "SelectChild" then
    let pages := stack
    ({ widget with stack := gtk_selection_model_select_item pages (to_guint idx) },
      some (Reply.bool true))
  else if method_name = "DeselectChild" then
    (widget, some (Reply.bool false))
  else if method_name = "DeselectSelectedChild" then
    (widget, some (Reply.bool false))
  else if method_name = "IsChildSelected" then
    let pages := stack
    let active := gtk_selection_model_is_selected pages (to_guint idx)
    (widget, some (Reply.bool active))
  else if method_name = "SelectAll" then
    (widget, some (Reply.bool false))
  else if method_name = "ClearSelection" then
    (widget, some (Reply.bool false))
  else
    (widget, none)

/-- The getter `stackswitcher_get_property`. -/
def stackswitcher_get_property (widget : GtkStackSwitcher) (property_name : String) :
    Option Int :=
  if property_name = "NSelectedChildren" then
    match widget.stack with
    | none => some 0
    | some stack =>
        if gtk_stack_get_visible_child stack = none then some 0 else some 1
  else
    none

/-! ## Dispatch tables and selection-change subscriptions -/

/-- The method handlers of the C file, by name. -/
inductive MethodCall where
  | listbox_handle_method
  | flowbox_handle_method
  | combobox_handle_method
  | stackswitcher_handle_method
  deriving DecidableEq, Repr

/-- The property getters of the C file, by name. -/
inductive GetProperty where
  | listbox_get_property
  | flowbox_get_property
  | combobox_get_property
  | stackswitcher_get_property
  deriving DecidableEq, Repr

/-- A `GDBusInterfaceVTable`: the method handler, the property getter and the
property setter (`none` is the C `NULL`; no table of the file has a setter). -/
structure GDBusInterfaceVTable where
  method_call : MethodCall
  get_property : GetProperty
  set_property : Option Unit
  deriving DecidableEq, Repr

/-- The table `listbox_vtable`. -/
def listbox_vtable : GDBusInterfaceVTable :=
  { method_call := MethodCall.listbox_handle_method
    get_property := GetProperty.listbox_get_property
    set_property := none }

/-- The table `flowbox_vtable`. -/
def flowbox_vtable : GDBusInterfaceVTable :=
  { method_call := MethodCall.flowbox_handle_method
    get_property := GetProperty.flowbox_get_property
    set_property := none }

/-- The table `combobox_vtable`. -/
def combobox_vtable : GDBusInterfaceVTable :=
  { method_call := MethodCall.combobox_handle_method
    get_property := GetProperty.combobox_get_property
    set_property := none }

/-- The table `stackswitcher_vtable`. -/
def stackswitcher_vtable : GDBusInterfaceVTable :=
  { method_call := MethodCall.stackswitcher_handle_method
    get_property := GetProperty.stackswitcher_get_property
    set_property := none }

/-- The `SelectionChanged` record of the C file: the callback (a function
pointer, identified by a number) and its user data (a pointer, likewise). -/
structure SelectionChanged where
  changed : Nat
  data : Nat
  deriving DecidableEq, Repr

/-- Modelled from the spec: a native signal handler connected on a widget: the
detailed signal it is attached to and the (callback, data) pair it is bound
to. -/
structure SignalHandler where
  detailed_signal : String
  c_handler : Nat
  data : Nat
  deriving DecidableEq, Repr

/-- Modelled from the spec: a `GtkAccessible` as the dispatch and the
subscription code see it.  The four flags are the results of the type tests
`GTK_IS_LIST_BOX`, `GTK_IS_FLOW_BOX`, `GTK_IS_COMBO_BOX` and
`GTK_IS_STACK_SWITCHER`; `selection_data` is the object data stored under the
key "accessible-selection-data" (`none` when there is none); `handlers` are the
signal handlers connected on the object, oldest first. -/
structure GtkAccessible where
  is_list_box : Bool
  is_flow_box : Bool
  is_combo_box : Bool
  is_stack_switcher : Bool
  selection_data : Option SelectionChanged
  handlers : List SignalHandler
  deriving DecidableEq, Repr

/-- The function `gtk_atspi_get_selection_vtable`; `none` is the C `NULL`. -/
def gtk_atspi_get_selection_vtable (accessible : GtkAccessible) :
    Option GDBusInterfaceVTable :=
  if accessible.is_list_box then some listbox_vtable
  else if accessible.is_flow_box then some flowbox_vtable
  else if accessible.is_combo_box then some combobox_vtable
  else if accessible.is_stack_switcher then some stackswitcher_vtable
  else none

/-- Modelled from the spec: `g_object_set_data_full` and `g_object_set_data`
on the key "accessible-selection-data": the record stored under the key is
replaced (the previous one is released), `none` removes it. -/
def g_object_set_data (object : GtkAccessible) (data : Option SelectionChanged) :
    GtkAccessible :=
  { object with selection_data := data }

/-- Modelled from the spec: `g_object_get_data` on the key
"accessible-selection-data"; `none` is the C `NULL`. -/
def g_object_get_data (object : GtkAccessible) : Option SelectionChanged :=
  object.selection_data

/-- Modelled from the spec: `g_signal_connect_swapped`, one more handler bound
to (callback, data) on the named signal. -/
def g_signal_connect_swapped (instance_ : GtkAccessible) (detailed_signal : String)
    (c_handler : Nat) (data : Nat) : GtkAccessible :=
  { instance_ with
    handlers := instance_.handlers ++
      [{ detailed_signal := detailed_signal, c_handler := c_handler, data := data }] }

/-- Modelled from the spec: `g_signal_handlers_disconnect_by_func`, every
handler bound to exactly that (callback, data) pair is detached, on whatever
signal it is. -/
def g_signal_handlers_disconnect_by_func (instance_ : GtkAccessible) (func : Nat)
    (data : Nat) : GtkAccessible :=
  { instance_ with
    handlers := instance_.handlers.filter fun h =>
      !(decide (h.c_handler = func) && decide (h.data = data)) }

/-- The function `gtk_atspi_connect_selection_signals`. -/
def gtk_atspi_connect_selection_signals (accessible : GtkAccessible)
    (selection_changed : Nat) (data : Nat) : GtkAccessible :=
  if accessible.is_list_box then
    let changed : SelectionChanged := { changed := selection_changed, data := data }
    let accessible1 := g_object_set_data accessible (some changed)
    g_signal_connect_swapped accessible1 "selected-rows-changed" selection_changed data
  else if accessible.is_flow_box then
    let changed : SelectionChanged := { changed := selection_changed, data := data }
    let accessible1 := g_object_set_data accessible (some changed)
    g_signal_connect_swapped accessible1 "selected-children-changed" selection_changed data
  else if accessible.is_combo_box then
    let changed : SelectionChanged := { changed := selection_changed, data := data }
    let accessible1 := g_object_set_data accessible (some changed)
    g_signal_connect_swapped accessible1 "changed" selection_changed data
  else if accessible.is_stack_switcher then
    let changed : SelectionChanged := { changed := selection_changed, data := data }
    let accessible1 := g_object_set_data accessible (some changed)
    g_signal_connect_swapped accessible1 "notify::visible-child" selection_changed data
  else
    accessible

/-- How a call that may read through a pointer ends: it returns, or it reads
through `NULL`, which C leaves undefined (the call does not return a value). -/
inductive Outcome (α : Type) where
  | returned (value : α)
  | null_dereference
  deriving DecidableEq, Repr

/-- The function `gtk_atspi_disconnect_selection_signals`.  The record read
from the object is used (`changed->changed`, `changed->data`) without a test
for `NULL`. -/
def gtk_atspi_disconnect_selection_signals (accessible : GtkAccessible) :
    Outcome GtkAccessible :=
  if accessible.is_list_box || accessible.is_flow_box || accessible.is_combo_box ||
      accessible.is_stack_switcher then
    match g_object_get_data accessible with
    | none => Outcome.null_dereference
    | some changed =>
        let accessible1 :=
          g_signal_handlers_disconnect_by_func accessible changed.changed changed.data
        Outcome.returned (g_object_set_data accessible1 none)
  else
    Outcome.returned accessible

/-! ## Registration root (`gtk/a11y/gtkatspiroot.c`) -/

/-- The value of the macro `ATSPI_VERSION`. -/
def ATSPI_VERSION : String := "2.1"

/-- The value of the macro `ATSPI_ROOT_PATH`. -/
def ATSPI_ROOT_PATH : String := "/org/a11y/atspi/accessible/root"

/-- The structure `_GtkAtSpiRoot`.  A string field is a C pointer: `none` is
`NULL`, the value of every field of an instance that was only initialised. -/
structure GtkAtSpiRoot where
  bus_address : Option String
  connection : Option Nat
  root_path : Option String
  toolkit_name : Option String
  version : Option String
  atspi_version : Option String
  desktop_name : Option String
  desktop_path : Option String
  application_id : Int
  deriving DecidableEq, Repr

/-- The instance after `gtk_at_spi_root_init`, which has an empty body: the
object system hands out zeroed memory. -/
def gtk_at_spi_root_init : GtkAtSpiRoot :=
  { bus_address := none, connection := none, root_path := none, toolkit_name := none,
    version := none, atspi_version := none, desktop_name := none, desktop_path := none,
    application_id := 0 }

/-- The field writes of `gtk_at_spi_root_register`; `package_version` is the
value of the macro `PACKAGE_VERSION`, which the file does not define.  The two
object registrations and the asynchronous `Embed` call change no field. -/
def gtk_at_spi_root_register (self : GtkAtSpiRoot) (package_version : String) :
    GtkAtSpiRoot :=
  { self with
    toolkit_name := some "GTK"
    version := some package_version
    atspi_version := some ATSPI_VERSION
    root_path := some ATSPI_ROOT_PATH }

/-- The function `gtk_at_spi_root_constructed`: `connection` is what
`g_dbus_connection_new_for_address_sync` returned, `none` with the error set;
the root registers itself only when the connection was made. -/
def gtk_at_spi_root_constructed (self : GtkAtSpiRoot) (connection : Option Nat)
    (package_version : String) : GtkAtSpiRoot :=
  let self1 := { self with connection := connection }
  match connection with
  | none => self1
  | some _ => gtk_at_spi_root_register self1 package_version

/-- The function `gtk_at_spi_root_new` followed by the construction of the
object: the bus address is stored by `gtk_at_spi_root_set_property`. -/
def gtk_at_spi_root_new (bus_address : String) (connection : Option Nat)
    (package_version : String) : GtkAtSpiRoot :=
  gtk_at_spi_root_constructed { gtk_at_spi_root_init with bus_address := some bus_address }
    connection package_version

/-- What `g_dbus_connection_call_finish` hands to the reply callback: the
error, `none` when the call succeeded, and the reply `((so))`, `none` for
`NULL`. -/
structure CallFinish where
  error : Option String
  reply : Option (String × String)
  deriving DecidableEq, Repr

/-- The callback `on_registration_reply`. -/
def on_registration_reply (self : GtkAtSpiRoot) (result : CallFinish) : GtkAtSpiRoot :=
  match result.error with
  | some _ => self
  | none =>
      match result.reply with
      | some (name, path) => { self with desktop_name := some name, desktop_path := some path }
      | none => self

/-- A `GVariant` as the root builds it.  The string constructors record the
C pointers they were given: `none` is `NULL`, which `g_variant_new_string` and
`g_variant_new` with format `(so)` do not accept. -/
inductive GVariant where
  | int32 (value : Int)
  | string (s : Option String)
  | so (name : Option String) (path : Option String)
  deriving DecidableEq, Repr

/-- A top-level window, as far as the root looks at it. -/
structure GtkWindow where
  visible : Bool
  deriving DecidableEq, Repr

/-- The function `gtk_widget_is_visible` on a top-level window (not in the
translated sources; the window carries its answer). -/
def gtk_widget_is_visible (widget : GtkWindow) : Bool := widget.visible

/-- What the getters of the root read from the process when they are called:
the results of `g_get_prgname`, `g_get_application_name`,
`setlocale (LC_MESSAGES, NULL)` and `gtk_window_list_toplevels`. -/
structure ProcessState where
  prgname : Option String
  application_name : Option String
  locale : Option String
  toplevels : List GtkWindow
  deriving DecidableEq, Repr

/-- The `for` loop of the `ChildCount` branch: `n_children` is an `int`. -/
def count_visible_toplevels : List GtkWindow → Int → Int
  | [], n_children => n_children
  | l :: next, n_children =>
      count_visible_toplevels next
        (if gtk_widget_is_visible l then wrap32 (n_children + 1) else n_children)

/-- The result of a property getter of the root: the variant, or `NULL` with
the error `G_IO_ERROR_NOT_SUPPORTED` set. -/
inductive GetResult where
  | res (value : GVariant)
  | error_not_supported
  deriving DecidableEq, Repr

/-- The getter `handle_accessible_get_property`; the root is returned with the
result since the getter receives it through a pointer. -/
def handle_accessible_get_property (self : GtkAtSpiRoot) (process : ProcessState)
    (object_path : String) (property_name : String) : GtkAtSpiRoot × GetResult :=
  if property_name = "Name" then
    (self, GetResult.res (GVariant.string process.prgname))
  else if property_name = "Description" then
    (self, GetResult.res (GVariant.string process.application_name))
  else if property_name = "Locale" then
    (self, GetResult.res (GVariant.string process.locale))
  else if property_name = "AccessibleId" then
    (self, GetResult.res (GVariant.string (some "")))
  else if property_name = "Parent" then
    (self, GetResult.res (GVariant.so self.desktop_name self.desktop_path))
  else if property_name = "ChildCount" then
    let n_children : Int :=
      if object_path = ATSPI_ROOT_PATH then
        count_visible_toplevels process.toplevels 0
      else 0
    (self, GetResult.res (GVariant.int32 n_children))
  else
    (self, GetResult.error_not_supported)

/-- The getter `handle_application_get_property`. -/
def handle_application_get_property (self : GtkAtSpiRoot) (property_name : String) :
    GtkAtSpiRoot × GetResult :=
  if property_name = "Id" then
    (self, GetResult.res (GVariant.int32 self.application_id))
  else if property_name = "ToolkitName" then
    (self, GetResult.res (GVariant.string self.toolkit_name))
  else if property_name = "Version" then
    (self, GetResult.res (GVariant.string self.version))
  else if property_name = "AtspiVersion" then
    (self, GetResult.res (GVariant.string self.atspi_version))
  else
    (self, GetResult.error_not_supported)

/-! ## Reference notions used in the statements -/

/-- The selected children of a container, in container order. -/
def selected_children (cs : List Child) : List Child := cs.filter fun c => c.selected

/-- A container with three children of which the last two are selected. -/
def sample_children : List Child :=
  [{ ctx := 10, selected := false }, { ctx := 11, selected := true },
   { ctx := 12, selected := true }]

/-- The change signal of each kind, in the words of the specification:
row-selection-changed for the list box, children-selection-changed for the flow
box, generic value-changed for the combo box, visible-child-changed for the
stack switcher; the kinds are tried in dispatch order. -/
def spec_change_signal (accessible : GtkAccessible) : String :=
  if accessible.is_list_box then "selected-rows-changed"
  else if accessible.is_flow_box then "selected-children-changed"
  else if accessible.is_combo_box then "changed"
  else "notify::visible-child"

/-- Whether the widget is of one of the four supported kinds. -/
def supported_kind (accessible : GtkAccessible) : Bool :=
  accessible.is_list_box || accessible.is_flow_box || accessible.is_combo_box ||
    accessible.is_stack_switcher

/-- Whether a handler is bound to the pair (callback, data). -/
def bound_to (h : SignalHandler) (callback data : Nat) : Bool :=
  decide (h.c_handler = callback) && decide (h.data = data)

/-- A list box with no subscription and no handler connected. -/
def sample_list_box : GtkAccessible :=
  { is_list_box := true, is_flow_box := false, is_combo_box := false,
    is_stack_switcher := false, selection_data := none, handlers := [] }

/-- The visible top-level windows of a list. -/
def visible_toplevels (windows : List GtkWindow) : List GtkWindow :=
  windows.filter fun w => w.visible

/-- A process with three top-level windows, two of them visible. -/
def sample_process : ProcessState :=
  { prgname := some "demo", application_name := some "Demo", locale := some "C",
    toplevels := [{ visible := true }, { visible := false }, { visible := true }] }

/-! ## Lemmas on machine integers and on the enumeration of the selected children -/

theorem wrap32_pred {n : Int} (h1 : -2 ^ 31 < n) (h2 : n < 2 ^ 31) :
    wrap32 (n - 1) = n - 1 := by
  unfold wrap32; omega

theorem wrap32_pred_min : wrap32 (-2 ^ 31 - 1) = 2 ^ 31 - 1 := by
  decide

theorem wrap32_succ {n : Int} (h1 : 0 ≤ n) (h2 : n + 1 < 2 ^ 31) :
    wrap32 (n + 1) = n + 1 := by
  unfold wrap32; omega

theorem at_context_append_length (pre cs : List Child) (c : Child) :
    gtk_accessible_get_at_context (pre ++ c :: cs) pre.length = c.ctx := by
  have h : (pre ++ c :: cs)[pre.length]? = some c := by
    rw [List.getElem?_append_right (le_refl _)]
    simp
  unfold gtk_accessible_get_at_context
  rw [h]

/-- What `find_nth` leaves in the counter after the enumeration of the selected
children of `cs`, started with count `n`: the child at position `n` among the
selected ones when there is one, else the child it started with.  The bound on
the number of selected children keeps the decremented `int` from coming back to
zero after it wrapped. -/
theorem selected_foreach_find_nth (cs : List Child) :
    ∀ (pre : List Child) (n : Int) (prev : Option Nat),
      -2 ^ 31 ≤ n → n < 2 ^ 31 → ((selected_children cs).length : Int) ≤ n + 2 ^ 32 →
      (selected_foreach_from find_nth pre.length cs { n := n, child := prev }).child.map
          (gtk_accessible_get_at_context (pre ++ cs))
        = if 0 ≤ n ∧ n < (selected_children cs).length
          then ((selected_children cs)[n.toNat]?).map Child.ctx
          else prev.map (gtk_accessible_get_at_context (pre ++ cs)) := by
  induction cs with
  | nil =>
      intro pre n prev _ _ _
      have : ¬ (0 ≤ n ∧ n < 0) := by omega
      simp [selected_foreach_from, selected_children, this]
  | cons c cs ih =>
      intro pre n prev h1 h2 h3
      have hpre : (pre ++ [c]).length = pre.length + 1 := by simp
      have happ : pre ++ c :: cs = (pre ++ [c]) ++ cs := by simp
      cases hc : c.selected with
      | false =>
          have hf : selected_children (c :: cs) = selected_children cs := by
            simp [selected_children, hc]
          rw [hf] at h3 ⊢
          simp only [selected_foreach_from, hc, Bool.false_eq_true, if_false]
          rw [← hpre, happ]
          exact ih (pre ++ [c]) n prev h1 h2 h3
      | true =>
          have hf : selected_children (c :: cs) = c :: selected_children cs := by
            simp [selected_children, hc]
          rw [hf] at h3 ⊢
          simp only [List.length_cons, Nat.cast_add, Nat.cast_one] at h3 ⊢
          simp only [selected_foreach_from, hc, if_true, find_nth]
          rw [← hpre, happ]
          by_cases h0 : n = 0
          · subst h0
            have hw : wrap32 (0 - 1) = -1 := by decide
            rw [hw, ih (pre ++ [c]) (-1) _ (by omega) (by omega) (by omega)]
            have hneg : ¬ ((0 : Int) ≤ -1 ∧ (-1 : Int) < (selected_children cs).length) := by
              omega
            have hpos : (0 : Int) ≤ 0 ∧ (0 : Int) < ((selected_children cs).length : Int) + 1 := by
              omega
            rw [if_neg hneg, if_pos hpos, ← happ]
            simp [at_context_append_length]
          · by_cases hmin : n = -2 ^ 31
            · subst hmin
              rw [wrap32_pred_min, ih (pre ++ [c]) (2 ^ 31 - 1) _ (by omega) (by omega) (by omega)]
              have hneg : ¬ ((0 : Int) ≤ 2 ^ 31 - 1 ∧
                  (2 ^ 31 - 1 : Int) < (selected_children cs).length) := by omega
              have hneg2 : ¬ ((0 : Int) ≤ -2 ^ 31 ∧
                  (-2 ^ 31 : Int) < ((selected_children cs).length : Int) + 1) := by omega
              rw [if_neg hneg, if_neg hneg2]
              simp
            · rw [wrap32_pred (by omega) h2,
                ih (pre ++ [c]) (n - 1) _ (by omega) (by omega) (by omega)]
              simp only [h0, if_false]
              by_cases hn : 0 ≤ n
              · have hnat : n.toNat = (n - 1).toNat + 1 := by omega
                by_cases hlt : n - 1 < (selected_children cs).length
                · rw [if_pos ⟨by omega, hlt⟩, if_pos ⟨hn, by omega⟩, hnat]
                  simp
                · rw [if_neg (by omega), if_neg (by omega)]
              · rw [if_neg (by omega), if_neg (by omega)]

/-- The child `find_nth` finds from a fresh counter, as the AT context of the
child at position `idx` among the selected children. -/
theorem find_nth_from_start (cs : List Child) (idx : Int)
    (hlo : -2 ^ 31 ≤ idx) (hhi : idx < 2 ^ 31)
    (hcount : ((selected_children cs).length : Int) ≤ 2 ^ 31) :
    (selected_foreach_from find_nth 0 cs { n := idx, child := none }).child.map
        (gtk_accessible_get_at_context cs)
      = if 0 ≤ idx ∧ idx < (selected_children cs).length
        then ((selected_children cs)[idx.toNat]?).map Child.ctx
        else none := by
  have h := selected_foreach_find_nth cs [] idx none hlo hhi (by omega)
  simpa using h

/-- The reply of the `GetSelectedChild` branch shared by the list box and the
flow box, from the counter the enumeration left. -/
theorem get_selected_child_reply (cs : List Child) (idx : Int)
    (hlo : -2 ^ 31 ≤ idx) (hhi : idx < 2 ^ 31)
    (hcount : ((selected_children cs).length : Int) ≤ 2 ^ 31) :
    (match (selected_foreach_from find_nth 0 cs { n := idx, child := none }).child with
      | none => Reply.error_invalid_args
      | some child => Reply.ref (gtk_accessible_get_at_context cs child))
      = if 0 ≤ idx ∧ idx < (selected_children cs).length
        then (match (selected_children cs)[idx.toNat]? with
              | some c => Reply.ref c.ctx
              | none => Reply.error_invalid_args)
        else Reply.error_invalid_args := by
  have h := find_nth_from_start cs idx hlo hhi hcount
  cases hch : (selected_foreach_from find_nth 0 cs { n := idx, child := none }).child with
  | none =>
      rw [hch] at h
      by_cases hr : 0 ≤ idx ∧ idx < (selected_children cs).length
      · rw [if_pos hr] at h
        rw [if_pos hr]
        cases hs : (selected_children cs)[idx.toNat]? with
        | none => rfl
        | some c => rw [hs] at h; simp at h
      · rw [if_neg hr]
  | some child =>
      rw [hch] at h
      by_cases hr : 0 ≤ idx ∧ idx < (selected_children cs).length
      · rw [if_pos hr] at h
        rw [if_pos hr]
        cases hs : (selected_children cs)[idx.toNat]? with
        | none => rw [hs] at h; simp at h
        | some c =>
            rw [hs] at h
            simp only [Option.map_some', Option.some.injEq] at h
            simp [h]
      · rw [if_neg hr] at h
        simp at h

theorem child_is_selected_set_selected (cs : List Child) :
    ∀ (p : Nat) (b : Bool), p < cs.length →
      child_is_selected (set_selected cs p b) p = b := by
  induction cs with
  | nil => intro p b h; simp at h
  | cons c cs ih =>
      intro p b h
      cases p with
      | zero => simp [set_selected, child_is_selected]
      | succ p =>
          have hp : p < cs.length := by simpa using h
          have := ih p b hp
          simpa [set_selected, child_is_selected] using this

theorem child_at_index_in_range (cs : List Child) (idx : Int)
    (h0 : 0 ≤ idx) (h1 : idx < cs.length) :
    child_at_index cs idx = some idx.toNat := by
  simp [child_at_index, h0, h1]

theorem child_at_index_out_of_range (cs : List Child) (idx : Int)
    (h : idx < 0 ∨ (cs.length : Int) ≤ idx) :
    child_at_index cs idx = none := by
  have : ¬ (0 ≤ idx ∧ idx < cs.length) := by omega
  simp [child_at_index, this]

theorem selected_foreach_count_selected (cs : List Child) :
    ∀ (i : Nat) (d : Int), 0 ≤ d → d + (selected_children cs).length < 2 ^ 31 →
      selected_foreach_from count_selected i cs d = d + (selected_children cs).length := by
  induction cs with
  | nil => intro i d _ _; simp [selected_foreach_from, selected_children]
  | cons c cs ih =>
      intro i d h0 h1
      cases hc : c.selected with
      | false =>
          have hf : selected_children (c :: cs) = selected_children cs := by
            simp [selected_children, hc]
          rw [hf] at h1 ⊢
          simp only [selected_foreach_from, hc, Bool.false_eq_true, if_false]
          exact ih (i + 1) d h0 h1
      | true =>
          have hf : selected_children (c :: cs) = c :: selected_children cs := by
            simp [selected_children, hc]
          rw [hf] at h1 ⊢
          simp only [List.length_cons, Nat.cast_add, Nat.cast_one] at h1 ⊢
          simp only [selected_foreach_from, hc, if_true, count_selected]
          rw [wrap32_succ h0 (by omega), ih (i + 1) (d + 1) (by omega) (by omega)]
          omega

theorem selected_children_all (cs : List Child) :
    (selected_children (cs.map fun c => { c with selected := true })).length = cs.length := by
  induction cs with
  | nil => rfl
  | cons c cs ih => simpa [selected_children] using ih

theorem selected_children_none (cs : List Child) :
    (selected_children (cs.map fun c => { c with selected := false })).length = 0 := by
  induction cs with
  | nil => rfl
  | cons c cs ih => simp [selected_children]

/-! ## Supporting facts on the handlers -/

theorem set_selected_length (cs : List Child) :
    ∀ (p : Nat) (b : Bool), (set_selected cs p b).length = cs.length := by
  induction cs with
  | nil => intro p b; rfl
  | cons c cs ih =>
      intro p b
      cases p with
      | zero => rfl
      | succ p => simp [set_selected, ih p b]

/-- Where `SelectChild(i)` followed by `IsChildSelected(i)` does reply true:
the list box and the flow box at every index that addresses a child, the combo
box at every such index that is not a multiple of 256 (the reply keeps the low
byte of the active index), the stack switcher at every index that addresses a
page. -/
theorem select_then_is_selected_true (cs : List Child) (combo : GtkComboBox)
    (stack : GtkStack) (children : List Nat) (idx : Int) (h0 : 0 ≤ idx)
    (h32 : idx < 2 ^ 31) :
    (idx < cs.length →
      (listbox_handle_method (listbox_handle_method { children := cs } "SelectChild" idx).1
          "IsChildSelected" idx).2 = some (Reply.bool true) ∧
      (flowbox_handle_method (flowbox_handle_method { children := cs } "SelectChild" idx).1
          "IsChildSelected" idx).2 = some (Reply.bool true)) ∧
    (idx % 256 ≠ 0 → idx < combo.n_items →
      (combobox_handle_method (combobox_handle_method combo "SelectChild" idx).1
          "IsChildSelected" idx).2 = some (Reply.bool true)) ∧
    (idx < stack.n_pages →
      (stackswitcher_handle_method
          (stackswitcher_handle_method { stack := some stack, children := children }
            "SelectChild" idx).1
          "IsChildSelected" idx).2 = some (Reply.bool true)) := by
  refine ⟨fun h => ?_, fun hne h => ?_, fun h => ?_⟩
  · have hat := child_at_index_in_range cs idx h0 h
    have hlen : (idx.toNat) < cs.length := by omega
    have hat2 := child_at_index_in_range (set_selected cs idx.toNat true) idx h0
      (by rw [set_selected_length]; exact h)
    have hsel := child_is_selected_set_selected cs idx.toNat true hlen
    simp [listbox_handle_method, flowbox_handle_method, gtk_list_box_get_row_at_index,
      gtk_flow_box_get_child_at_index, gtk_list_box_select_row, gtk_flow_box_select_child,
      gtk_list_box_row_is_selected, gtk_flow_box_child_is_selected, hat, hat2, hsel]
  · have h1 : ¬ idx < -1 := by omega
    have h2 : ¬ idx = -1 := by omega
    simp [combobox_handle_method, gtk_combo_box_set_active, gtk_combo_box_get_active,
      g_variant_new_boolean, h, h1, h2, hne]
  · have hg : to_guint idx = idx.toNat := by
      unfold to_guint
      congr 1
      omega
    have hlt : idx.toNat < stack.n_pages := by omega
    simp [stackswitcher_handle_method, gtk_selection_model_select_item,
      gtk_selection_model_is_selected, hg, hlt]

/-- The combo box and the stack switcher answer `SelectChild`, `DeselectChild`
and `IsChildSelected` with a boolean for every index: these handlers have no
check of the index. -/
theorem combobox_stackswitcher_reply_bool (combo : GtkComboBox)
    (switcher : GtkStackSwitcher) (idx : Int) :
    (combobox_handle_method combo "SelectChild" idx).2 = some (Reply.bool true) ∧
    (combobox_handle_method combo "DeselectChild" idx).2 = some (Reply.bool true) ∧
    (∃ b, (combobox_handle_method combo "IsChildSelected" idx).2 = some (Reply.bool b)) ∧
    (stackswitcher_handle_method switcher "SelectChild" idx).2 = some (Reply.bool true) ∧
    (stackswitcher_handle_method switcher "DeselectChild" idx).2 = some (Reply.bool false) ∧
    (∃ b, (stackswitcher_handle_method switcher "IsChildSelected" idx).2
        = some (Reply.bool b)) := by
  simp [combobox_handle_method, stackswitcher_handle_method, em]

/-- What `NSelectedChildren` reads on the kinds other than the combo box: the
number of selected children on the list box and the flow box (a number an `int`
holds), and on the stack switcher 1 when the stack has a visible page and 0
when it has none or when there is no stack. -/
theorem n_selected_children_counts (cs : List Child) (stack : GtkStack)
    (children : List Nat) (h : ((selected_children cs).length : Int) < 2 ^ 31) :
    listbox_get_property { children := cs } "NSelectedChildren"
      = some ((selected_children cs).length : Int) ∧
    flowbox_get_property { children := cs } "NSelectedChildren"
      = some ((selected_children cs).length : Int) ∧
    stackswitcher_get_property { stack := some stack, children := children }
        "NSelectedChildren"
      = some (if stack.visible_child = none then 0 else 1) ∧
    stackswitcher_get_property { stack := none, children := children } "NSelectedChildren"
      = some 0 := by
  have hc := selected_foreach_count_selected cs 0 0 (le_refl _) (by omega)
  simp only [zero_add] at hc
  refine ⟨?_, ?_, ?_, ?_⟩
  · simp [listbox_get_property, gtk_list_box_selected_foreach, hc]
  · simp [flowbox_get_property, gtk_flow_box_selected_foreach, hc]
  · by_cases hv : stack.visible_child = none <;>
      simp [stackswitcher_get_property, gtk_stack_get_visible_child, hv]
  · simp [stackswitcher_get_property]

/-! ## Selection bridge: the claims -/

/-- C1: for the list box and the flow box, `GetSelectedChild(idx)` with a
32-bit `idx` replies with the reference of the child at position `idx` among
the selected children (in enumeration order) when there is one, and with the
"invalid arguments" error when `idx` is negative or not below the number of
selected children; the widget is returned unchanged in both cases.  The number
of selected children is one an `int` counter can run through without coming
back to zero (at most 2^31). -/
theorem get_selected_child_nth_selected (cs : List Child) (idx : Int)
    (hlo : -2 ^ 31 ≤ idx) (hhi : idx < 2 ^ 31)
    (hcount : ((selected_children cs).length : Int) ≤ 2 ^ 31) :
    (∀ c, 0 ≤ idx → (selected_children cs)[idx.toNat]? = some c →
        listbox_handle_method { children := cs } "GetSelectedChild" idx
          = ({ children := cs }, some (Reply.ref c.ctx)) ∧
        flowbox_handle_method { children := cs } "GetSelectedChild" idx
          = ({ children := cs }, some (Reply.ref c.ctx))) ∧
    (idx < 0 ∨ ((selected_children cs).length : Int) ≤ idx →
        listbox_handle_method { children := cs } "GetSelectedChild" idx
          = ({ children := cs }, some Reply.error_invalid_args) ∧
        flowbox_handle_method { children := cs } "GetSelectedChild" idx
          = ({ children := cs }, some Reply.error_invalid_args)) := by
  have key := get_selected_child_reply cs idx hlo hhi hcount
  have hl : listbox_handle_method { children := cs } "GetSelectedChild" idx
      = ({ children := cs }, some
          (match (selected_foreach_from find_nth 0 cs { n := idx, child := none }).child with
            | none => Reply.error_invalid_args
            | some child => Reply.ref (gtk_accessible_get_at_context cs child))) := by
    simp only [listbox_handle_method, gtk_list_box_selected_foreach, if_true]
    cases (selected_foreach_from find_nth 0 cs { n := idx, child := none }).child <;> rfl
  have hf : flowbox_handle_method { children := cs } "GetSelectedChild" idx
      = ({ children := cs }, some
          (match (selected_foreach_from find_nth 0 cs { n := idx, child := none }).child with
            | none => Reply.error_invalid_args
            | some child => Reply.ref (gtk_accessible_get_at_context cs child))) := by
    simp only [flowbox_handle_method, gtk_flow_box_selected_foreach, if_true]
    cases (selected_foreach_from find_nth 0 cs { n := idx, child := none }).child <;> rfl
  rw [hl, hf, key]
  constructor
  · intro c h0 hc
    have hlt : idx.toNat < (selected_children cs).length := by
      by_contra hge
      rw [List.getElem?_eq_none (by omega)] at hc
      exact Option.noConfusion hc
    have hr : 0 ≤ idx ∧ idx < (selected_children cs).length := ⟨h0, by omega⟩
    rw [if_pos hr, hc]
    exact ⟨rfl, rfl⟩
  · intro hout
    have hr : ¬ (0 ≤ idx ∧ idx < (selected_children cs).length) := by omega
    rw [if_neg hr]
    exact ⟨rfl, rfl⟩

/-- Witness of C1 on a container whose second and third children are selected:
index 1 gives the third child. -/
theorem get_selected_child_nth_selected_witness :
    (-2 ^ 31 ≤ (1 : Int) ∧ (1 : Int) < 2 ^ 31 ∧
      ((selected_children sample_children).length : Int) ≤ 2 ^ 31) ∧
    listbox_handle_method { children := sample_children } "GetSelectedChild" 1
      = ({ children := sample_children }, some (Reply.ref 12)) ∧
    listbox_handle_method { children := sample_children } "GetSelectedChild" 2
      = ({ children := sample_children }, some Reply.error_invalid_args) :=
  ⟨⟨by decide, by decide, by decide⟩,
    ((get_selected_child_nth_selected sample_children 1 (by decide) (by decide)
        (by decide)).1 { ctx := 12, selected := true } (by decide) (by decide)).1,
    ((get_selected_child_nth_selected sample_children 2 (by decide) (by decide)
        (by decide)).2 (Or.inr (by decide))).1⟩


/-- C2 (the code departs from it on the combo box): on every combo box with at
least one item (`n + 1` items), whatever was active, `SelectChild(0)` makes
item 0 the active one and replies true, and the `IsChildSelected(0)` that
follows replies false: the handler answers from the active index alone (is
its low byte different from zero) and never compares the queried index. -/
theorem combobox_select_then_is_selected_zero (n : Nat) (active : Int) :
    (combobox_handle_method { n_items := n + 1, active := active } "SelectChild" 0)
      = ({ n_items := n + 1, active := 0 }, some (Reply.bool true)) ∧
    (combobox_handle_method
        (combobox_handle_method { n_items := n + 1, active := active } "SelectChild" 0).1
        "IsChildSelected" 0).2 = some (Reply.bool false) := by
  have hn : (0 : Int) < (n : Int) + 1 := by omega
  simp [combobox_handle_method, gtk_combo_box_set_active, gtk_combo_box_get_active,
    g_variant_new_boolean, hn]

/-- C3, as stated, fails on the stack switcher: with two pages, index 5
addresses no item, yet `DeselectChild(5)` is answered with the boolean false and
not with the "invalid arguments" error. -/
theorem stackswitcher_deselect_out_of_range_replies_bool :
    (2 : Int) ≤ 5 ∧
    (stackswitcher_handle_method
        { stack := some { n_pages := 2, visible_child := some 0 }, children := [20, 21] }
        "DeselectChild" 5).2 = some (Reply.bool false) ∧
    (stackswitcher_handle_method
        { stack := some { n_pages := 2, visible_child := some 0 }, children := [20, 21] }
        "DeselectChild" 5).2 ≠ some Reply.error_invalid_args := by
  decide

/-- C3, amended: on the list box and the flow box, `SelectChild`,
`DeselectChild` and `IsChildSelected` called with an index that addresses no
child (negative, or not below the number of children) reply with the "invalid
arguments" error and return the widget unchanged; on the stack switcher
`DeselectChild` replies false for every index and returns the widget
unchanged. -/
theorem out_of_range_index_invalid_args (cs : List Child) (widget : GtkStackSwitcher)
    (idx : Int) :
    (idx < 0 ∨ (cs.length : Int) ≤ idx →
      (listbox_handle_method { children := cs } "SelectChild" idx
          = ({ children := cs }, some Reply.error_invalid_args) ∧
        listbox_handle_method { children := cs } "DeselectChild" idx
          = ({ children := cs }, some Reply.error_invalid_args) ∧
        listbox_handle_method { children := cs } "IsChildSelected" idx
          = ({ children := cs }, some Reply.error_invalid_args)) ∧
      (flowbox_handle_method { children := cs } "SelectChild" idx
          = ({ children := cs }, some Reply.error_invalid_args) ∧
        flowbox_handle_method { children := cs } "DeselectChild" idx
          = ({ children := cs }, some Reply.error_invalid_args) ∧
        flowbox_handle_method { children := cs } "IsChildSelected" idx
          = ({ children := cs }, some Reply.error_invalid_args))) ∧
    stackswitcher_handle_method widget "DeselectChild" idx
      = (widget, some (Reply.bool false)) := by
  refine ⟨fun h => ?_, ?_⟩
  · have hnone := child_at_index_out_of_range cs idx h
    simp [listbox_handle_method, flowbox_handle_method, gtk_list_box_get_row_at_index,
      gtk_flow_box_get_child_at_index, hnone]
  · simp [stackswitcher_handle_method]

/-- Witness of C3 (amended): index 3 and index -1 on a container of three
children. -/
theorem out_of_range_index_invalid_args_witness :
    ((3 : Int) < 0 ∨ (sample_children.length : Int) ≤ 3) ∧
    listbox_handle_method { children := sample_children } "SelectChild" 3
      = ({ children := sample_children }, some Reply.error_invalid_args) ∧
    flowbox_handle_method { children := sample_children } "IsChildSelected" (-1)
      = ({ children := sample_children }, some Reply.error_invalid_args) :=
  ⟨Or.inr (by decide),
    ((out_of_range_index_invalid_args sample_children
        { stack := none, children := [] } 3).1 (Or.inr (by decide))).1.1,
    ((out_of_range_index_invalid_args sample_children
        { stack := none, children := [] } (-1)).1 (Or.inl (by decide))).2.2.2⟩


/-- C4, as stated, fails on the stack switcher: with two pages of which page 0
is visible, `DeselectChild(1)` replies false although item 1 is not selected
after the call (the claim asks for true exactly when the item is not selected
afterwards). -/
theorem stackswitcher_deselect_flag_not_state :
    (stackswitcher_handle_method
        { stack := some { n_pages := 2, visible_child := some 0 }, children := [20, 21] }
        "DeselectChild" 1).2 = some (Reply.bool false) ∧
    gtk_selection_model_is_selected
      (stackswitcher_handle_method
        { stack := some { n_pages := 2, visible_child := some 0 }, children := [20, 21] }
        "DeselectChild" 1).1.stack 1 = false := by
  decide

/-- C4, amended: for an index that addresses an existing item, on the list box,
the flow box and the combo box the boolean of `SelectChild(idx)` is the
selection state of item `idx` after the call and the boolean of
`DeselectChild(idx)` is true exactly when item `idx` is not selected after the
call; on the stack switcher the boolean of `SelectChild(idx)` is the selection
state of page `idx` after the call and `DeselectChild(idx)` always replies
false, so no flag is true when the item did not reach the requested state. -/
theorem select_flag_is_resulting_state (cs : List Child) (combo : GtkComboBox)
    (stack : GtkStack) (children : List Nat) (idx : Int) (h0 : 0 ≤ idx)
    (h32 : idx < 2 ^ 31) :
    (idx < cs.length →
      (listbox_handle_method { children := cs } "SelectChild" idx).2
        = some (Reply.bool (gtk_list_box_row_is_selected
            (listbox_handle_method { children := cs } "SelectChild" idx).1 idx.toNat)) ∧
      (listbox_handle_method { children := cs } "DeselectChild" idx).2
        = some (Reply.bool (!gtk_list_box_row_is_selected
            (listbox_handle_method { children := cs } "DeselectChild" idx).1 idx.toNat)) ∧
      (flowbox_handle_method { children := cs } "SelectChild" idx).2
        = some (Reply.bool (gtk_flow_box_child_is_selected
            (flowbox_handle_method { children := cs } "SelectChild" idx).1 idx.toNat)) ∧
      (flowbox_handle_method { children := cs } "DeselectChild" idx).2
        = some (Reply.bool (!gtk_flow_box_child_is_selected
            (flowbox_handle_method { children := cs } "DeselectChild" idx).1 idx.toNat))) ∧
    (idx < combo.n_items →
      (combobox_handle_method combo "SelectChild" idx).2
        = some (Reply.bool (decide (gtk_combo_box_get_active
            (combobox_handle_method combo "SelectChild" idx).1 = idx))) ∧
      (combobox_handle_method combo "DeselectChild" idx).2
        = some (Reply.bool (!decide (gtk_combo_box_get_active
            (combobox_handle_method combo "DeselectChild" idx).1 = idx)))) ∧
    (idx < stack.n_pages →
      (stackswitcher_handle_method { stack := some stack, children := children }
          "SelectChild" idx).2
        = some (Reply.bool (gtk_selection_model_is_selected
            (stackswitcher_handle_method { stack := some stack, children := children }
              "SelectChild" idx).1.stack idx.toNat)) ∧
      stackswitcher_handle_method { stack := some stack, children := children }
          "DeselectChild" idx
        = ({ stack := some stack, children := children }, some (Reply.bool false))) := by
  refine ⟨fun h => ?_, fun h => ?_, fun h => ?_⟩
  · have hat := child_at_index_in_range cs idx h0 h
    simp [listbox_handle_method, flowbox_handle_method, gtk_list_box_get_row_at_index,
      gtk_flow_box_get_child_at_index, hat]
  · have h1 : ¬ idx < -1 := by omega
    have h2 : ¬ idx = -1 := by omega
    have h3 : ¬ (-1 : Int) = idx := by omega
    simp [combobox_handle_method, gtk_combo_box_set_active, gtk_combo_box_get_active,
      h, h1, h2, h3]
  · have hg : to_guint idx = idx.toNat := by
      unfold to_guint
      congr 1
      omega
    have hlt : idx.toNat < stack.n_pages := by omega
    simp [stackswitcher_handle_method, gtk_selection_model_select_item,
      gtk_selection_model_is_selected, hg, hlt]

/-- Witness of C4 (amended): index 1 on a container of three children, on a
combo box of three items with nothing active and on a stack of two pages whose
first page is visible. -/
theorem select_flag_is_resulting_state_witness :
    ((0 : Int) ≤ 1 ∧ (1 : Int) < 2 ^ 31 ∧ (1 : Int) < sample_children.length ∧
      (1 : Int) < (GtkComboBox.mk 3 (-1)).n_items ∧
      (1 : Int) < (GtkStack.mk 2 (some 0)).n_pages) ∧
    (listbox_handle_method { children := sample_children } "DeselectChild" 1).2
      = some (Reply.bool (!gtk_list_box_row_is_selected
          (listbox_handle_method { children := sample_children } "DeselectChild" 1).1
          (1 : Int).toNat)) ∧
    (combobox_handle_method (GtkComboBox.mk 3 (-1)) "SelectChild" 1).2
      = some (Reply.bool (decide (gtk_combo_box_get_active
          (combobox_handle_method (GtkComboBox.mk 3 (-1)) "SelectChild" 1).1 = 1))) ∧
    (stackswitcher_handle_method { stack := some (GtkStack.mk 2 (some 0)), children := [20, 21] }
        "SelectChild" 1).2
      = some (Reply.bool (gtk_selection_model_is_selected
          (stackswitcher_handle_method
            { stack := some (GtkStack.mk 2 (some 0)), children := [20, 21] }
            "SelectChild" 1).1.stack (1 : Int).toNat)) :=
  ⟨⟨by decide, by decide, by decide, by decide, by decide⟩,
    ((select_flag_is_resulting_state sample_children (GtkComboBox.mk 3 (-1))
        (GtkStack.mk 2 (some 0)) [20, 21] 1 (by decide) (by decide)).1 (by decide)).2.1,
    ((select_flag_is_resulting_state sample_children (GtkComboBox.mk 3 (-1))
        (GtkStack.mk 2 (some 0)) [20, 21] 1 (by decide) (by decide)).2.1 (by decide)).1,
    ((select_flag_is_resulting_state sample_children (GtkComboBox.mk 3 (-1))
        (GtkStack.mk 2 (some 0)) [20, 21] 1 (by decide) (by decide)).2.2 (by decide)).1⟩


/-- C5 (the code departs from it on the combo box): `NSelectedChildren` of a
combo box is 0 exactly when the active index is 0 and 1 for every other active
index: it reads 0 while item 0 is active and 1 while nothing is active (active
index -1). -/
theorem combobox_n_selected_children_tests_nonzero (n_items : Nat) (active : Int) :
    combobox_get_property { n_items := n_items, active := active } "NSelectedChildren"
      = some (if active = 0 then 0 else 1) ∧
    combobox_get_property { n_items := 3, active := 0 } "NSelectedChildren" = some 0 ∧
    combobox_get_property { n_items := 3, active := -1 } "NSelectedChildren" = some 1 := by
  refine ⟨?_, by decide, by decide⟩
  by_cases h : active = 0 <;> simp [combobox_get_property, gtk_combo_box_get_active, h]

/-- C6 (the code departs from it): `IsChildSelected(idx)` of a combo box does
not depend on `idx`: the queried index is overwritten with the active index,
which is then sent as the boolean, of which one byte is kept; the reply is true
exactly when the active index is not a multiple of 256.  With item 0 active it
replies false for index 0, with item 2 active it replies true for index 1, with
nothing active (-1) it replies true for index 0, and with item 256 active it
replies false for index 256. -/
theorem combobox_is_child_selected_ignores_index (widget : GtkComboBox) (idx : Int) :
    combobox_handle_method widget "IsChildSelected" idx
      = (widget, some (Reply.bool (decide (widget.active % 256 ≠ 0)))) ∧
    (combobox_handle_method { n_items := 3, active := 0 } "IsChildSelected" 0).2
      = some (Reply.bool false) ∧
    (combobox_handle_method { n_items := 3, active := 2 } "IsChildSelected" 1).2
      = some (Reply.bool true) ∧
    (combobox_handle_method { n_items := 3, active := -1 } "IsChildSelected" 0).2
      = some (Reply.bool true) ∧
    (combobox_handle_method { n_items := 300, active := 256 } "IsChildSelected" 256).2
      = some (Reply.bool false) := by
  refine ⟨?_, by decide, by decide, by decide, by decide⟩
  simp [combobox_handle_method, gtk_combo_box_get_active, g_variant_new_boolean]

/-- C7: on a list box and on a flow box with `n` children (`n` below 2^31, so
that the `int` count holds it), from every selection state, `SelectAll()`
replies true and `NSelectedChildren` then reads `n`; `ClearSelection()` replies
true and `NSelectedChildren` then reads 0. -/
theorem select_all_clear_selection_count (cs : List Child) (idx : Int)
    (hn : (cs.length : Int) < 2 ^ 31) :
    ((listbox_handle_method { children := cs } "SelectAll" idx).2 = some (Reply.bool true) ∧
      listbox_get_property (listbox_handle_method { children := cs } "SelectAll" idx).1
        "NSelectedChildren" = some (cs.length : Int) ∧
      (listbox_handle_method { children := cs } "ClearSelection" idx).2
        = some (Reply.bool true) ∧
      listbox_get_property (listbox_handle_method { children := cs } "ClearSelection" idx).1
        "NSelectedChildren" = some 0) ∧
    ((flowbox_handle_method { children := cs } "SelectAll" idx).2 = some (Reply.bool true) ∧
      flowbox_get_property (flowbox_handle_method { children := cs } "SelectAll" idx).1
        "NSelectedChildren" = some (cs.length : Int) ∧
      (flowbox_handle_method { children := cs } "ClearSelection" idx).2
        = some (Reply.bool true) ∧
      flowbox_get_property (flowbox_handle_method { children := cs } "ClearSelection" idx).1
        "NSelectedChildren" = some 0) := by
  have hall := selected_children_all cs
  have hnone := selected_children_none cs
  have call := selected_foreach_count_selected
    (cs.map fun c => { c with selected := true }) 0 0 (le_refl _) (by rw [hall]; omega)
  have cnone := selected_foreach_count_selected
    (cs.map fun c => { c with selected := false }) 0 0 (le_refl _) (by rw [hnone]; omega)
  rw [hall] at call
  rw [hnone] at cnone
  simp only [zero_add, Nat.cast_zero] at call cnone
  simp [listbox_handle_method, flowbox_handle_method, listbox_get_property,
    flowbox_get_property, gtk_list_box_select_all, gtk_list_box_unselect_all,
    gtk_flow_box_select_all, gtk_flow_box_unselect_all, gtk_list_box_selected_foreach,
    gtk_flow_box_selected_foreach, call, cnone]

/-- Witness of C7 on a container of three children, two of them selected. -/
theorem select_all_clear_selection_count_witness :
    (sample_children.length : Int) < 2 ^ 31 ∧
    listbox_get_property (listbox_handle_method { children := sample_children } "SelectAll" 0).1
      "NSelectedChildren" = some 3 ∧
    flowbox_get_property
      (flowbox_handle_method { children := sample_children } "ClearSelection" 0).1
      "NSelectedChildren" = some 0 :=
  ⟨by decide,
    (select_all_clear_selection_count sample_children 0 (by decide)).1.2.1,
    (select_all_clear_selection_count sample_children 0 (by decide)).2.2.2.2⟩

/-- C8 (the code departs from it): `GetSelectedChild` of a stack switcher never
reads its index, the reply is the same for any two indices; with two pages of
which only page 0 is selected, index 1 is answered with the reference of the
first child instead of the "invalid arguments" error. -/
theorem stackswitcher_get_selected_child_ignores_index (widget : GtkStackSwitcher)
    (idx idx2 : Int) :
    stackswitcher_handle_method widget "GetSelectedChild" idx
      = stackswitcher_handle_method widget "GetSelectedChild" idx2 ∧
    stackswitcher_handle_method
        { stack := some { n_pages := 2, visible_child := some 0 }, children := [20, 21] }
        "GetSelectedChild" 1
      = ({ stack := some { n_pages := 2, visible_child := some 0 }, children := [20, 21] },
          some (Reply.ref 20)) := by
  refine ⟨?_, by decide⟩
  simp [stackswitcher_handle_method]

/-- C9: `SelectAll` on a combo box, and `DeselectChild`,
`DeselectSelectedChild` and `SelectAll` on a stack switcher, reply false and
return the widget unchanged, for every widget state and every index. -/
theorem unsupported_operations_reply_false (combo : GtkComboBox)
    (switcher : GtkStackSwitcher) (idx : Int) :
    combobox_handle_method combo "SelectAll" idx = (combo, some (Reply.bool false)) ∧
    stackswitcher_handle_method switcher "DeselectChild" idx
      = (switcher, some (Reply.bool false)) ∧
    stackswitcher_handle_method switcher "DeselectSelectedChild" idx
      = (switcher, some (Reply.bool false)) ∧
    stackswitcher_handle_method switcher "SelectAll" idx
      = (switcher, some (Reply.bool false)) := by
  simp [combobox_handle_method, stackswitcher_handle_method]

/-- C10: `GetSelectedChild` on a combo box replies with the "not supported"
error for every index and every widget state, and returns the widget (so its
active index) unchanged. -/
theorem combobox_get_selected_child_not_supported (widget : GtkComboBox) (idx : Int) :
    combobox_handle_method widget "GetSelectedChild" idx
      = (widget, some Reply.error_not_supported) := by
  simp [combobox_handle_method]

/-! ## Supporting facts on the subscriptions, the root and the frame of `DeselectChild` -/

theorem count_visible_toplevels_eq (windows : List GtkWindow) :
    ∀ (n : Int), 0 ≤ n → n + (visible_toplevels windows).length < 2 ^ 31 →
      count_visible_toplevels windows n = n + (visible_toplevels windows).length := by
  induction windows with
  | nil => intro n _ _; simp [count_visible_toplevels, visible_toplevels]
  | cons w ws ih =>
      intro n h0 h1
      cases hv : w.visible with
      | false =>
          have hf : visible_toplevels (w :: ws) = visible_toplevels ws := by
            simp [visible_toplevels, hv]
          rw [hf] at h1 ⊢
          simp only [count_visible_toplevels, gtk_widget_is_visible, hv, Bool.false_eq_true,
            if_false]
          exact ih n h0 h1
      | true =>
          have hf : visible_toplevels (w :: ws) = w :: visible_toplevels ws := by
            simp [visible_toplevels, hv]
          rw [hf] at h1 ⊢
          simp only [List.length_cons, Nat.cast_add, Nat.cast_one] at h1 ⊢
          simp only [count_visible_toplevels, gtk_widget_is_visible, hv, if_true]
          rw [wrap32_succ h0 (by omega), ih (n + 1) (by omega) (by omega)]
          omega

theorem connect_supported (accessible : GtkAccessible) (cb data : Nat)
    (hk : supported_kind accessible = true) :
    gtk_atspi_connect_selection_signals accessible cb data
      = { accessible with
          selection_data := some { changed := cb, data := data }
          handlers := accessible.handlers ++
            [{ detailed_signal := spec_change_signal accessible, c_handler := cb,
               data := data }] } := by
  rcases accessible with ⟨l, f, c, s, sd, hs⟩
  cases l <;> cases f <;> cases c <;> cases s <;>
    simp [supported_kind] at hk <;>
    simp [gtk_atspi_connect_selection_signals, g_object_set_data, g_signal_connect_swapped,
      spec_change_signal]

theorem disconnect_of_record (accessible : GtkAccessible) (record : SelectionChanged)
    (hk : supported_kind accessible = true)
    (hr : accessible.selection_data = some record) :
    gtk_atspi_disconnect_selection_signals accessible
      = Outcome.returned { accessible with
          selection_data := none
          handlers := accessible.handlers.filter
            (fun h => !bound_to h record.changed record.data) } := by
  have hk2 : (accessible.is_list_box || accessible.is_flow_box || accessible.is_combo_box ||
      accessible.is_stack_switcher) = true := hk
  simp only [gtk_atspi_disconnect_selection_signals, hk2, if_true, g_object_get_data, hr]
  rfl

theorem disconnect_of_no_record (accessible : GtkAccessible)
    (hk : supported_kind accessible = true) (hn : accessible.selection_data = none) :
    gtk_atspi_disconnect_selection_signals accessible = Outcome.null_dereference := by
  have hk2 : (accessible.is_list_box || accessible.is_flow_box || accessible.is_combo_box ||
      accessible.is_stack_switcher) = true := hk
  simp only [gtk_atspi_disconnect_selection_signals, hk2, if_true, g_object_get_data, hn]

theorem filter_not_bound_append (hs : List SignalHandler) (signal : String) (cb data : Nat) :
    (hs ++ [SignalHandler.mk signal cb data]).filter (fun h => !bound_to h cb data)
      = hs.filter (fun h => !bound_to h cb data) := by
  simp [List.filter_append, bound_to]

/-- After two connects with different pairs on a widget of a supported kind,
the handler of the first pair is still connected, and it is still connected
after the disconnect that follows. -/
theorem first_handler_survives (accessible : GtkAccessible) (cb1 d1 cb2 d2 : Nat)
    (hk : supported_kind accessible = true) (hne : ¬ (cb1 = cb2 ∧ d1 = d2)) :
    ∃ r, gtk_atspi_disconnect_selection_signals
          (gtk_atspi_connect_selection_signals
            (gtk_atspi_connect_selection_signals accessible cb1 d1) cb2 d2)
        = Outcome.returned r ∧
      r.selection_data = none ∧
      SignalHandler.mk (spec_change_signal accessible) cb1 d1 ∈ r.handlers := by
  have hc1 := connect_supported accessible cb1 d1 hk
  have hk1 : supported_kind (gtk_atspi_connect_selection_signals accessible cb1 d1) = true := by
    rw [hc1]; exact hk
  have hc2 := connect_supported _ cb2 d2 hk1
  have hk2 : supported_kind (gtk_atspi_connect_selection_signals
      (gtk_atspi_connect_selection_signals accessible cb1 d1) cb2 d2) = true := by
    rw [hc2]; exact hk1
  have hd := disconnect_of_record _ { changed := cb2, data := d2 } hk2 (by rw [hc2])
  refine ⟨_, hd, rfl, ?_⟩
  rw [hc2, hc1]
  have hor : ¬ cb1 = cb2 ∨ ¬ d1 = d2 := by
    by_cases h : cb1 = cb2
    · exact Or.inr fun h2 => hne ⟨h, h2⟩
    · exact Or.inl h
  simp [bound_to, hor]

theorem child_is_selected_set_selected_ne (cs : List Child) :
    ∀ (p q : Nat) (b : Bool), p ≠ q →
      child_is_selected (set_selected cs p b) q = child_is_selected cs q := by
  induction cs with
  | nil => intro p q b _; rfl
  | cons c cs ih =>
      intro p q b hne
      cases p with
      | zero =>
          cases q with
          | zero => exact absurd rfl hne
          | succ q => simp [set_selected, child_is_selected]
      | succ p =>
          cases q with
          | zero => simp [set_selected, child_is_selected]
          | succ q =>
              have := ih p q b (by omega)
              simpa [set_selected, child_is_selected] using this

/-- On the list box and the flow box, `DeselectChild(idx)` with an index that
addresses a child leaves the selection flag of every other child as it was. -/
theorem deselect_child_frame (cs : List Child) (idx : Int) (q : Nat)
    (h0 : 0 ≤ idx) (h1 : idx < cs.length) (hq : idx.toNat ≠ q) :
    gtk_list_box_row_is_selected
        (listbox_handle_method { children := cs } "DeselectChild" idx).1 q
      = gtk_list_box_row_is_selected { children := cs } q ∧
    gtk_flow_box_child_is_selected
        (flowbox_handle_method { children := cs } "DeselectChild" idx).1 q
      = gtk_flow_box_child_is_selected { children := cs } q := by
  have hat := child_at_index_in_range cs idx h0 h1
  have hne := child_is_selected_set_selected_ne cs idx.toNat q false hq
  simp [listbox_handle_method, flowbox_handle_method, gtk_list_box_get_row_at_index,
    gtk_flow_box_get_child_at_index, gtk_list_box_unselect_row, gtk_flow_box_unselect_child,
    gtk_list_box_row_is_selected, gtk_flow_box_child_is_selected, hat, hne]

/-! ## Dispatch, subscriptions and the registration root: the claims -/

/-- C11: `gtk_atspi_get_selection_vtable` tests the capabilities in the order
list box, flow box, combo box, stack switcher and returns the table of the
first that matches; a widget that matches none gets no table (`NULL`); the four
tables are pairwise distinct. -/
theorem selection_vtable_first_match (accessible : GtkAccessible) :
    (accessible.is_list_box = true →
      gtk_atspi_get_selection_vtable accessible = some listbox_vtable) ∧
    (accessible.is_list_box = false → accessible.is_flow_box = true →
      gtk_atspi_get_selection_vtable accessible = some flowbox_vtable) ∧
    (accessible.is_list_box = false → accessible.is_flow_box = false →
      accessible.is_combo_box = true →
      gtk_atspi_get_selection_vtable accessible = some combobox_vtable) ∧
    (accessible.is_list_box = false → accessible.is_flow_box = false →
      accessible.is_combo_box = false → accessible.is_stack_switcher = true →
      gtk_atspi_get_selection_vtable accessible = some stackswitcher_vtable) ∧
    (accessible.is_list_box = false → accessible.is_flow_box = false →
      accessible.is_combo_box = false → accessible.is_stack_switcher = false →
      gtk_atspi_get_selection_vtable accessible = none) ∧
    (listbox_vtable ≠ flowbox_vtable ∧ listbox_vtable ≠ combobox_vtable ∧
      listbox_vtable ≠ stackswitcher_vtable ∧ flowbox_vtable ≠ combobox_vtable ∧
      flowbox_vtable ≠ stackswitcher_vtable ∧ combobox_vtable ≠ stackswitcher_vtable) := by
  refine ⟨?_, ?_, ?_, ?_, ?_, by decide⟩
  · intro h1
    simp [gtk_atspi_get_selection_vtable, h1]
  · intro h1 h2
    simp [gtk_atspi_get_selection_vtable, h1, h2]
  · intro h1 h2 h3
    simp [gtk_atspi_get_selection_vtable, h1, h2, h3]
  · intro h1 h2 h3 h4
    simp [gtk_atspi_get_selection_vtable, h1, h2, h3, h4]
  · intro h1 h2 h3 h4
    simp [gtk_atspi_get_selection_vtable, h1, h2, h3, h4]

/-- Witness of C11: a widget that passes the list-box test, one that passes the
flow-box and the combo-box tests, a combo box, a stack switcher and a widget of
no supported kind. -/
theorem selection_vtable_first_match_witness :
    gtk_atspi_get_selection_vtable (GtkAccessible.mk true true false true none [])
      = some listbox_vtable ∧
    gtk_atspi_get_selection_vtable (GtkAccessible.mk false true true false none [])
      = some flowbox_vtable ∧
    gtk_atspi_get_selection_vtable (GtkAccessible.mk false false true true none [])
      = some combobox_vtable ∧
    gtk_atspi_get_selection_vtable (GtkAccessible.mk false false false true none [])
      = some stackswitcher_vtable ∧
    gtk_atspi_get_selection_vtable (GtkAccessible.mk false false false false none [])
      = none :=
  ⟨(selection_vtable_first_match (GtkAccessible.mk true true false true none [])).1 rfl,
    (selection_vtable_first_match (GtkAccessible.mk false true true false none [])).2.1
      rfl rfl,
    (selection_vtable_first_match (GtkAccessible.mk false false true true none [])).2.2.1
      rfl rfl rfl,
    (selection_vtable_first_match (GtkAccessible.mk false false false true none [])).2.2.2.1
      rfl rfl rfl rfl,
    (selection_vtable_first_match (GtkAccessible.mk false false false false none [])).2.2.2.2.1
      rfl rfl rfl rfl⟩

/-- C12 (the code departs from it): on a root that was constructed and whose
registration reply has not arrived, whatever the bus address and whether or not
the connection was made, the `Parent` getter builds its `(so)` value from the
two `NULL` fields `desktop_name` and `desktop_path`; the value is not the pair
of empty strings. -/
theorem parent_before_reply_built_from_null (bus_address : String)
    (connection : Option Nat) (package_version : String) (process : ProcessState)
    (object_path : String) :
    (handle_accessible_get_property
        (gtk_at_spi_root_new bus_address connection package_version)
        process object_path "Parent").2 = GetResult.res (GVariant.so none none) ∧
    (handle_accessible_get_property
        (gtk_at_spi_root_new bus_address connection package_version)
        process object_path "Parent").2 ≠ GetResult.res (GVariant.so (some "") (some "")) := by
  have h : (gtk_at_spi_root_new bus_address connection package_version).desktop_name = none ∧
      (gtk_at_spi_root_new bus_address connection package_version).desktop_path = none := by
    cases connection <;>
      simp [gtk_at_spi_root_new, gtk_at_spi_root_constructed, gtk_at_spi_root_register,
        gtk_at_spi_root_init]
  simp [handle_accessible_get_property, h.1, h.2]

/-- C13: after `on_registration_reply` has processed a successful reply that
carries (name, path), the `Parent` getter returns exactly (name, path) and the
other fields of the root are the ones it had; a reply that carries an error
leaves the whole root unchanged. -/
theorem parent_after_registration_reply (self : GtkAtSpiRoot) (name path : String)
    (process : ProcessState) (object_path : String) (message : String)
    (reply : Option (String × String)) :
    (handle_accessible_get_property
        (on_registration_reply self { error := none, reply := some (name, path) })
        process object_path "Parent").2
      = GetResult.res (GVariant.so (some name) (some path)) ∧
    on_registration_reply self { error := none, reply := some (name, path) }
      = { self with desktop_name := some name, desktop_path := some path } ∧
    on_registration_reply self { error := some message, reply := reply } = self := by
  simp [handle_accessible_get_property, on_registration_reply]

/-- C14: read at the root object path, `ChildCount` is the number of top-level
windows of the list that are visible at the time of the read (a number an
`int` holds), so 0 for an empty list and when no window is visible; the getter
returns the root as it received it. -/
theorem child_count_counts_visible_toplevels (self : GtkAtSpiRoot)
    (process : ProcessState)
    (h : ((visible_toplevels process.toplevels).length : Int) < 2 ^ 31) :
    handle_accessible_get_property self process ATSPI_ROOT_PATH "ChildCount"
      = (self, GetResult.res
          (GVariant.int32 ((visible_toplevels process.toplevels).length : Int))) := by
  have hc := count_visible_toplevels_eq process.toplevels 0 (le_refl _) (by omega)
  simp only [zero_add] at hc
  simp [handle_accessible_get_property, hc]

/-- Witness of C14: three windows of which two are visible, then the same read
after the windows are gone. -/
theorem child_count_counts_visible_toplevels_witness :
    ((visible_toplevels sample_process.toplevels).length : Int) < 2 ^ 31 ∧
    handle_accessible_get_property gtk_at_spi_root_init sample_process ATSPI_ROOT_PATH
        "ChildCount"
      = (gtk_at_spi_root_init, GetResult.res (GVariant.int32 2)) ∧
    handle_accessible_get_property gtk_at_spi_root_init
        { sample_process with toplevels := [] } ATSPI_ROOT_PATH "ChildCount"
      = (gtk_at_spi_root_init, GetResult.res (GVariant.int32 0)) :=
  ⟨by decide,
    child_count_counts_visible_toplevels gtk_at_spi_root_init sample_process (by decide),
    child_count_counts_visible_toplevels gtk_at_spi_root_init
      { sample_process with toplevels := [] } (by decide)⟩

/-- C15: on a widget of a supported kind with no subscription,
`gtk_atspi_connect_selection_signals (widget, cb, data)` stores the record
(cb, data) and connects one handler bound to (cb, data) on the change signal of
the kind; the `gtk_atspi_disconnect_selection_signals (widget)` that follows
returns, leaves no record stored and no handler bound to (cb, data) connected,
and keeps the other handlers: when no handler was bound to (cb, data) before,
the widget is back in the state it started from. -/
theorem connect_then_disconnect_restores (accessible : GtkAccessible) (cb data : Nat)
    (hk : supported_kind accessible = true) (hn : accessible.selection_data = none) :
    (gtk_atspi_connect_selection_signals accessible cb data).selection_data
      = some { changed := cb, data := data } ∧
    (gtk_atspi_connect_selection_signals accessible cb data).handlers
      = accessible.handlers ++
        [{ detailed_signal := spec_change_signal accessible, c_handler := cb, data := data }] ∧
    (∃ r, gtk_atspi_disconnect_selection_signals
          (gtk_atspi_connect_selection_signals accessible cb data) = Outcome.returned r ∧
        r.selection_data = none ∧
        (∀ h ∈ r.handlers, bound_to h cb data = false) ∧
        r.handlers = accessible.handlers.filter (fun h => !bound_to h cb data) ∧
        ((∀ h ∈ accessible.handlers, bound_to h cb data = false) → r = accessible)) := by
  have hc := connect_supported accessible cb data hk
  rw [hc]
  refine ⟨rfl, rfl, ?_⟩
  have hd := disconnect_of_record
    { accessible with
      selection_data := some { changed := cb, data := data }
      handlers := accessible.handlers ++
        [{ detailed_signal := spec_change_signal accessible, c_handler := cb, data := data }] }
    { changed := cb, data := data } hk rfl
  simp only [filter_not_bound_append] at hd
  refine ⟨_, hd, rfl, ?_, rfl, ?_⟩
  · intro h hh
    have := (List.mem_filter.mp hh).2
    simpa using this
  · intro hall
    have hf : accessible.handlers.filter (fun h => !bound_to h cb data)
        = accessible.handlers := by
      rw [List.filter_eq_self]
      intro h hh
      simp [hall h hh]
    rw [hf, ← hn]

/-- Witness of C15 on a list box with no subscription and no handler. -/
theorem connect_then_disconnect_restores_witness :
    (supported_kind sample_list_box = true ∧ sample_list_box.selection_data = none) ∧
    (gtk_atspi_connect_selection_signals sample_list_box 7 9).handlers
      = [{ detailed_signal := "selected-rows-changed", c_handler := 7, data := 9 }] ∧
    gtk_atspi_disconnect_selection_signals
      (gtk_atspi_connect_selection_signals sample_list_box 7 9)
      = Outcome.returned sample_list_box :=
  ⟨⟨by decide, by decide⟩,
    (connect_then_disconnect_restores sample_list_box 7 9 (by decide) (by decide)).2.1,
    by
      obtain ⟨r, hr, _, _, _, hback⟩ :=
        (connect_then_disconnect_restores sample_list_box 7 9 (by decide) (by decide)).2.2
      rw [hr, hback (by decide)]⟩

/-- C16 (the code departs from it): on a list box with no subscription,
connect (1, 1) followed by connect (2, 2) leaves one record, that of (2, 2),
and two connected handlers, the one bound to (1, 1) among them; the disconnect
that follows detaches only the handler of (2, 2), so the handler bound to
(1, 1) stays connected with no record stored. -/
theorem second_connect_leaves_first_handler :
    (gtk_atspi_connect_selection_signals
        (gtk_atspi_connect_selection_signals sample_list_box 1 1) 2 2).selection_data
      = some { changed := 2, data := 2 } ∧
    (gtk_atspi_connect_selection_signals
        (gtk_atspi_connect_selection_signals sample_list_box 1 1) 2 2).handlers
      = [{ detailed_signal := "selected-rows-changed", c_handler := 1, data := 1 },
         { detailed_signal := "selected-rows-changed", c_handler := 2, data := 2 }] ∧
    gtk_atspi_disconnect_selection_signals
        (gtk_atspi_connect_selection_signals
          (gtk_atspi_connect_selection_signals sample_list_box 1 1) 2 2)
      = Outcome.returned
          { sample_list_box with
            handlers :=
              [{ detailed_signal := "selected-rows-changed", c_handler := 1, data := 1 }] } := by
  decide

/-- C17, as stated, fails: on a list box with no subscription record, on which
another party has a handler connected, the disconnect runs into no check: it
reads the callback and the data through the `NULL` record. -/
theorem disconnect_without_record_reads_null :
    gtk_atspi_disconnect_selection_signals
        { sample_list_box with
          handlers := [{ detailed_signal := "selected-rows-changed", c_handler := 1, data := 1 }] }
      = Outcome.null_dereference := by
  decide

/-- C17, amended: on a widget of a supported kind that has no subscription
record, `gtk_atspi_disconnect_selection_signals` reads through the `NULL`
record: the call does not return (no defined error, no assertion), and this
happens before any handler is detached. -/
theorem disconnect_without_record_null_dereference (accessible : GtkAccessible)
    (hk : supported_kind accessible = true) (hn : accessible.selection_data = none) :
    gtk_atspi_disconnect_selection_signals accessible = Outcome.null_dereference ∧
    ∀ r, gtk_atspi_disconnect_selection_signals accessible ≠ Outcome.returned r := by
  have h := disconnect_of_no_record accessible hk hn
  refine ⟨h, ?_⟩
  intro r hr
  rw [h] at hr
  exact Outcome.noConfusion hr

/-- Witness of C17 (amended) on a stack switcher with no record. -/
theorem disconnect_without_record_null_dereference_witness :
    (supported_kind (GtkAccessible.mk false false false true none []) = true ∧
      (GtkAccessible.mk false false false true none []).selection_data = none) ∧
    gtk_atspi_disconnect_selection_signals (GtkAccessible.mk false false false true none [])
      = Outcome.null_dereference :=
  ⟨⟨by decide, by decide⟩,
    (disconnect_without_record_null_dereference
      (GtkAccessible.mk false false false true none []) (by decide) (by decide)).1⟩

/-- C18 (the code departs from it on the combo box): `DeselectChild(idx)` of a
combo box never uses `idx`: it leaves no item active and replies true, for
every index; with three items of which item 2 is active, `DeselectChild(0)`
deselects item 2. -/
theorem combobox_deselect_child_clears_active (widget : GtkComboBox) (idx : Int) :
    combobox_handle_method widget "DeselectChild" idx
      = ({ widget with active := -1 }, some (Reply.bool true)) ∧
    combobox_handle_method { n_items := 3, active := 2 } "DeselectChild" 0
      = ({ n_items := 3, active := -1 }, some (Reply.bool true)) := by
  refine ⟨?_, by decide⟩
  simp [combobox_handle_method, gtk_combo_box_set_active]

/-- C19, as stated, fails: with two pages of which page 0 is selected,
`ClearSelection()` of the stack switcher replies false and returns the widget
as it was, page 0 still selected: the page selection model is not asked
anything. -/
theorem stackswitcher_clear_selection_not_delegated :
    stackswitcher_handle_method
        { stack := some { n_pages := 2, visible_child := some 0 }, children := [20, 21] }
        "ClearSelection" 0
      = ({ stack := some { n_pages := 2, visible_child := some 0 }, children := [20, 21] },
          some (Reply.bool false)) ∧
    gtk_selection_model_is_selected
      (stackswitcher_handle_method
        { stack := some { n_pages := 2, visible_child := some 0 }, children := [20, 21] }
        "ClearSelection" 0).1.stack 0 = true := by
  decide

/-- C19, amended: `ClearSelection()` of the stack switcher replies false and
returns the widget unchanged for every widget state, without consulting the
page selection model; the methods that reply false and change nothing whatever
the widget and the index are exactly `DeselectChild`, `DeselectSelectedChild`,
`SelectAll` and `ClearSelection`. -/
theorem stackswitcher_clear_selection_replies_false (widget : GtkStackSwitcher)
    (idx : Int) (method_name : String) :
    stackswitcher_handle_method widget "ClearSelection" idx
      = (widget, some (Reply.bool false)) ∧
    ((∀ (w : GtkStackSwitcher) (i : Int),
        stackswitcher_handle_method w method_name i = (w, some (Reply.bool false))) ↔
      (method_name = "DeselectChild" ∨ method_name = "DeselectSelectedChild" ∨
        method_name = "SelectAll" ∨ method_name = "ClearSelection")) := by
  refine ⟨by simp [stackswitcher_handle_method], ?_, ?_⟩
  · intro hall
    by_cases h1 : method_name = "GetSelectedChild"
    · have := hall { stack := none, children := [] } 0
      rw [h1] at this
      exact absurd this (by decide)
    by_cases h2 : method_name = "SelectChild"
    · have := hall { stack := none, children := [] } 0
      rw [h2] at this
      exact absurd this (by decide)
    by_cases h3 : method_name = "DeselectChild"
    · exact Or.inl h3
    by_cases h4 : method_name = "DeselectSelectedChild"
    · exact Or.inr (Or.inl h4)
    by_cases h5 : method_name = "IsChildSelected"
    · have := hall { stack := some { n_pages := 1, visible_child := some 0 }, children := [] } 0
      rw [h5] at this
      exact absurd this (by decide)
    by_cases h6 : method_name = "SelectAll"
    · exact Or.inr (Or.inr (Or.inl h6))
    by_cases h7 : method_name = "ClearSelection"
    · exact Or.inr (Or.inr (Or.inr h7))
    have := hall { stack := none, children := [] } 0
    simp [stackswitcher_handle_method, h1, h2, h3, h4, h5, h6, h7] at this
  · intro hm w i
    rcases hm with h | h | h | h <;> subst h <;> simp [stackswitcher_handle_method]

end GtkAtspi
